import Mathlib

/-!
Verification of the credential lifecycle subsystem of the teams-mcp server.

The embedding models, from the source:
  - `src/services/graph.ts` (`GraphService`): `refreshAccessToken`,
    `ensureValidToken`, `initializeClient`, the auth provider's
    `getAccessToken` callback and `getClient`;
  - `src/index.ts`: `pollForToken` and `authenticate`.

Conventions of the embedding:
  - Timestamps are integers (milliseconds since epoch), mirroring
    `Date.now()`; `new Date(s)` applied to a missing or unparseable field
    yields an Invalid Date whose numeric comparisons are all false, which is
    modelled by `dateLe none x = false`.
  - Fields of the persisted JSON document are `Option`s because
    `JSON.parse` performs no validation: a missing field is `none`.
  - JavaScript truthiness of an optional string (`!x` tests) is
    `jsTruthyStr`: `none` and the empty string are falsy.
  - Each network call is an explicit `RefreshResponse` / `PollResponse`
    argument, and the results carry a count of network calls made and the
    list of filesystem operations performed, so that "no network call" and
    "persisted exactly once" are facts about the returned value.
-/

/-- The persisted auth record (`StoredAuthInfo` in both source files), as it
comes out of `JSON.parse`: every field may be missing. `expiresAt` is the
parse of the stored ISO string: `none` when the field is missing or does not
parse as a date (Invalid Date). -/
structure StoredAuthInfo where
  clientId : Option String
  authenticated : Option Bool
  timestamp : Option String
  expiresAt : Option Int
  accessToken : Option String
  refreshToken : Option String
deriving Repr, DecidableEq

/-- JavaScript truthiness of an optional string: `undefined` and `""` are
falsy, every other string is truthy. -/
def jsTruthyStr : Option String → Bool
  | none => false
  | some s => s ≠ ""

/-- JavaScript truthiness of an optional boolean: `undefined` is falsy. -/
def jsTruthyBool : Option Bool → Bool
  | none => false
  | some b => b

/-- `this.authInfo?.accessToken`. -/
def authAccessToken : Option StoredAuthInfo → Option String
  | none => none
  | some info => info.accessToken

/-- `this.authInfo?.refreshToken`. -/
def authRefreshToken : Option StoredAuthInfo → Option String
  | none => none
  | some info => info.refreshToken

/-- `join(homedir(), ".msgraph-mcp-auth.json")` — the same fixed location is
used as `authPath` in `graph.ts` and as `TOKEN_PATH` in `index.ts`. -/
def authPath : String := "HOME/.msgraph-mcp-auth.json"

/-- The fixed public client identifier from the source. -/
def CLIENT_ID : String := "14d82eec-204b-4c2f-b7e8-296a70dab67e"

/-- Abstract rendering of a millisecond timestamp as the ISO string
`new Date(ms).toISOString()` would produce; injective and otherwise opaque. -/
def isoOf (ms : Int) : String := "date:" ++ toString ms

def jsonQuote (s : String) : String := "\"" ++ s ++ "\""

/-- The fields `JSON.stringify` emits for a record, in declaration order;
missing (`undefined`) fields are omitted, exactly as `JSON.stringify` omits
them. -/
def serializeFields (info : StoredAuthInfo) : List String :=
  (match info.clientId with
   | some c => ["\"clientId\": " ++ jsonQuote c]
   | none => []) ++
  (match info.authenticated with
   | some b => ["\"authenticated\": " ++ (if b then "true" else "false")]
   | none => []) ++
  (match info.timestamp with
   | some t => ["\"timestamp\": " ++ jsonQuote t]
   | none => []) ++
  (match info.expiresAt with
   | some e => ["\"expiresAt\": " ++ jsonQuote (isoOf e)]
   | none => []) ++
  (match info.accessToken with
   | some a => ["\"accessToken\": " ++ jsonQuote a]
   | none => []) ++
  (match info.refreshToken with
   | some r => ["\"refreshToken\": " ++ jsonQuote r]
   | none => [])

/-- `JSON.stringify(this.authInfo, null, 2)`, with layout abstracted: an
opening brace, the serialized fields, a closing brace. -/
def serialize (info : StoredAuthInfo) : String :=
  "\x7b " ++ String.intercalate ", " (serializeFields info) ++ " \x7d"

/-- A parsed response of the token endpoint for the refresh grant:
`ok` carries the parsed JSON body of a 2xx answer, `httpError` a non-success
HTTP status with its body text, `networkError` a transport-level fault
(the `catch` branch of `refreshAccessToken`). -/
inductive RefreshResponse
  | ok (access_token : String) (refresh_token : String) (expires_in : Int)
  | httpError (status : Nat) (body : String)
  | networkError (msg : String)
deriving Repr, DecidableEq

/-- The distinct failure branches of `refreshAccessToken`, identified by the
distinct `console.error` message each branch emits. -/
inductive RefreshFailReason
  | noRefreshToken
  | serverRejected (status : Nat) (body : String)
  | transport (msg : String)
deriving Repr, DecidableEq

/-- A filesystem operation performed by the code. The source only ever
issues plain `fs.writeFile` calls; `rename` exists in the model to express
the write-temporary-then-rename pattern the atomicity claim refers to. -/
inductive FsOp
  | write (path : String) (data : String)
  | rename (src : String) (dst : String)
deriving Repr, DecidableEq

/-- Result of one `refreshAccessToken` (or `ensureValidToken`) invocation:
the boolean the source returns, the resulting `this.authInfo`, how many
network calls were made, which filesystem writes were issued, and which
failure branch (if any) was taken. -/
structure RefreshResult where
  success : Bool
  authInfo : Option StoredAuthInfo
  netCalls : Nat
  fsOps : List FsOp
  failReason : Option RefreshFailReason
deriving Repr, DecidableEq

/-- The record built on a successful refresh:
`{ ...this.authInfo, accessToken, refreshToken, expiresAt, timestamp }` with
`expiresAt = Date.now() + expires_in * 1000` and `timestamp` the current
time (the source calls `Date.now()` and `new Date()` a few lines apart;
the model uses one `now` for both). -/
def refreshSuccessInfo (now : Int) (info : StoredAuthInfo)
    (atk rtk : String) (ei : Int) : StoredAuthInfo :=
  { info with
    accessToken := some atk
    refreshToken := some rtk
    expiresAt := some (now + ei * 1000)
    timestamp := some (isoOf now) }

/-- `GraphService.refreshAccessToken`, graph.ts lines 47-107. Checks
`!this.authInfo?.refreshToken` first (no network call on absence), then
issues one POST to the token endpoint; on success updates `this.authInfo`
and writes the serialized record to `authPath`; on a non-ok response or a
thrown transport error it returns false leaving everything untouched. -/
def refreshAccessToken (now : Int) (auth : Option StoredAuthInfo)
    (resp : RefreshResponse) : RefreshResult :=
  if jsTruthyStr (authRefreshToken auth) then
    match auth, resp with
    | some info, .ok atk rtk ei =>
      let newInfo := refreshSuccessInfo now info atk rtk ei
      { success := true, authInfo := some newInfo, netCalls := 1,
        fsOps := [FsOp.write authPath (serialize newInfo)], failReason := none }
    | some info, .httpError status body =>
      { success := false, authInfo := some info, netCalls := 1, fsOps := [],
        failReason := some (.serverRejected status body) }
    | some info, .networkError msg =>
      { success := false, authInfo := some info, netCalls := 1, fsOps := [],
        failReason := some (.transport msg) }
    | none, _ =>
      { success := false, authInfo := none, netCalls := 0, fsOps := [],
        failReason := some .noRefreshToken }
  else
    { success := false, authInfo := auth, netCalls := 0, fsOps := [],
      failReason := some .noRefreshToken }

/-- The refresh margin: `5 * 60 * 1000` milliseconds. -/
def refreshThresholdMs : Int := 5 * 60 * 1000

/-- JavaScript `Date` comparison `d <= x`: an Invalid Date (modelled as
`none`) compares as `NaN`, so every comparison with it is false. -/
def dateLe : Option Int → Int → Bool
  | none, _ => false
  | some t, x => t ≤ x

/-- `expiresAt <= refreshThreshold` in `ensureValidToken`. -/
def needsRefresh (now : Int) (info : StoredAuthInfo) : Bool :=
  dateLe info.expiresAt (now + refreshThresholdMs)

/-- `GraphService.ensureValidToken`, graph.ts lines 109-126: false when no
record is loaded; refresh when the record expires within five minutes;
otherwise true with no network call. -/
def ensureValidToken (now : Int) (auth : Option StoredAuthInfo)
    (resp : RefreshResponse) : RefreshResult :=
  match auth with
  | none =>
    { success := false, authInfo := none, netCalls := 0, fsOps := [],
      failReason := none }
  | some info =>
    if needsRefresh now info then refreshAccessToken now (some info) resp
    else
      { success := true, authInfo := some info, netCalls := 0, fsOps := [],
        failReason := none }

/-- Outcome of the auth provider's `getAccessToken` callback: the token it
returns, or the thrown `"Unable to obtain valid access token"` error. -/
inductive TokenOutcome
  | token (t : String)
  | authError
deriving Repr, DecidableEq

/-- The `authProvider.getAccessToken` callback installed by
`initializeClient` (graph.ts lines 145-156): runs `ensureValidToken`, throws
unless it succeeded and `this.authInfo?.accessToken` is truthy, else returns
the (possibly just refreshed) cached access token. -/
def getAccessToken (now : Int) (auth : Option StoredAuthInfo)
    (resp : RefreshResponse) : TokenOutcome × RefreshResult :=
  let r := ensureValidToken now auth resp
  if r.success && jsTruthyStr (authAccessToken r.authInfo) then
    (TokenOutcome.token ((authAccessToken r.authInfo).getD ""), r)
  else (TokenOutcome.authError, r)

/-- The in-memory singleton state of `GraphService`: the loaded record, the
`isInitialized` flag, and whether `this.client` has been created. -/
structure GraphState where
  authInfo : Option StoredAuthInfo
  isInitialized : Bool
  clientSet : Bool
deriving Repr, DecidableEq

/-- The state of a freshly constructed `GraphService`. -/
def GraphState.fresh : GraphState :=
  { authInfo := none, isInitialized := false, clientSet := false }

/-- Result of `fs.readFile(authPath)` + `JSON.parse`: `notFound` covers both
a missing file and unparseable content (either throws into the `catch`,
leaving the state untouched). -/
inductive LoadResult
  | notFound
  | found (info : StoredAuthInfo)
deriving Repr, DecidableEq

/-- Result of one `initializeClient` call: the updated service state, the
network calls made and the filesystem writes issued during it. -/
structure InitResult where
  state : GraphState
  netCalls : Nat
  fsOps : List FsOp
deriving Repr, DecidableEq

/-- `GraphService.initializeClient`, graph.ts lines 128-163: no-op when
already initialized; loads and parses the store file; when the parsed record
is `authenticated` with a truthy `accessToken`, runs `ensureValidToken`; on
refresh failure it returns without creating the client and without setting
`isInitialized`; on success it installs the client and marks initialized. -/
def initializeClient (now : Int) (st : GraphState) (load : LoadResult)
    (resp : RefreshResponse) : InitResult :=
  if st.isInitialized then { state := st, netCalls := 0, fsOps := [] }
  else
    match load with
    | .notFound => { state := st, netCalls := 0, fsOps := [] }
    | .found info =>
      let st1 : GraphState := { st with authInfo := some info }
      if jsTruthyBool info.authenticated && jsTruthyStr info.accessToken then
        let r := ensureValidToken now (some info) resp
        let stOk : GraphState :=
          { authInfo := r.authInfo, clientSet := true, isInitialized := true }
        let stFail : GraphState := { st1 with authInfo := r.authInfo }
        if r.success then
          { state := stOk, netCalls := r.netCalls, fsOps := r.fsOps }
        else
          { state := stFail, netCalls := r.netCalls, fsOps := r.fsOps }
      else { state := st1, netCalls := 0, fsOps := [] }

/-- Outcome of `GraphService.getClient`: the Graph client, or the thrown
`"Not authenticated..."` error. -/
inductive ClientOutcome
  | client
  | notAuthenticatedError
deriving Repr, DecidableEq

/-- `GraphService.getClient`: initialize, then throw unless `this.client`
exists. -/
def getClient (now : Int) (st : GraphState) (load : LoadResult)
    (resp : RefreshResponse) : ClientOutcome × InitResult :=
  let r := initializeClient now st load resp
  if r.state.clientSet then (ClientOutcome.client, r)
  else (ClientOutcome.notAuthenticatedError, r)

/-- The parsed body of a successful device-code token response. -/
structure TokenResponse where
  access_token : String
  refresh_token : String
  expires_in : Int
deriving Repr, DecidableEq

/-- One answer of the token endpoint during device-code polling: a 2xx body,
or a non-ok response whose JSON carries `error` and `error_description`. -/
inductive PollResponse
  | ok (t : TokenResponse)
  | err (code : String) (description : String)
deriving Repr, DecidableEq

/-- How `pollForToken` ends: a token, one of the recognized terminal throws,
the generic `Authentication failed` throw, or the `Authentication timed out`
throw when the attempt cap is exhausted. -/
inductive PollOutcome
  | success (t : TokenResponse)
  | declinedError
  | expiredError
  | otherError (code : String) (description : String)
  | timeoutError
deriving Repr, DecidableEq

/-- Result of a `pollForToken` run: its outcome, how many requests were sent
to the token endpoint, and the interval slept before each request (in
seconds), in order. -/
structure PollResult where
  outcome : PollOutcome
  netCalls : Nat
  sleeps : List Nat
deriving Repr, DecidableEq

/-- `const maxAttempts = 100;` in `pollForToken`. -/
def maxAttempts : Nat := 100

/-- The loop body of `pollForToken` (index.ts lines 80-130). The fuel is
`maxAttempts - attempts`: `authorization_pending` and `slow_down` each
consume one unit (`attempts++`), `slow_down` additionally grows the interval
by 5 seconds; `ok` and the terminal error codes leave the loop at once; fuel
running out is the `while` guard failing, i.e. the timeout throw. The server
is a function from attempt index to response; each iteration sleeps the
current interval, then sends one request. -/
def pollAux (responses : Nat → PollResponse) :
    Nat → Nat → Nat → PollResult
  | 0, _, _ => { outcome := .timeoutError, netCalls := 0, sleeps := [] }
  | fuel + 1, idx, interval =>
    match responses idx with
    | .ok t => { outcome := .success t, netCalls := 1, sleeps := [interval] }
    | .err code descr =>
      if code = "authorization_pending" then
        let r := pollAux responses fuel (idx + 1) interval
        { r with netCalls := r.netCalls + 1, sleeps := interval :: r.sleeps }
      else if code = "slow_down" then
        let r := pollAux responses fuel (idx + 1) (interval + 5)
        { r with netCalls := r.netCalls + 1, sleeps := interval :: r.sleeps }
      else if code = "authorization_declined" then
        { outcome := .declinedError, netCalls := 1, sleeps := [interval] }
      else if code = "expired_token" then
        { outcome := .expiredError, netCalls := 1, sleeps := [interval] }
      else
        { outcome := .otherError code descr, netCalls := 1,
          sleeps := [interval] }

/-- `pollForToken(deviceCode, interval)`: run the loop with the full attempt
budget. -/
def pollForToken (responses : Nat → PollResponse) (interval : Nat) :
    PollResult :=
  pollAux responses maxAttempts 0 interval

/-- Does the response let polling continue (`authorization_pending` or
`slow_down`)? -/
def isPendingOrSlowDown : PollResponse → Bool
  | .ok _ => false
  | .err c _ => decide (c = "authorization_pending" ∨ c = "slow_down")

/-- Result of the `authenticate` CLI command (index.ts lines 132-177): the
record it stored (if any), the filesystem writes it issued, and whether it
ended in the error path. -/
structure AuthenticateResult where
  stored : Option StoredAuthInfo
  fsOps : List FsOp
  failed : Bool
deriving Repr, DecidableEq

/-- `authenticate`, from the `pollForToken` call on (the device-code request
is outside the claims; its returned `interval` is the parameter here): on a
token, build the `StoredAuthInfo` with `expiresAt = now + expires_in * 1000`
and write it to `TOKEN_PATH` once; every throw lands in the catch block,
which stores nothing. -/
def authenticate (now : Int) (responses : Nat → PollResponse)
    (interval : Nat) : AuthenticateResult :=
  let pr := pollForToken responses interval
  match pr.outcome with
  | .success t =>
    let authInfo : StoredAuthInfo :=
      { clientId := some CLIENT_ID, authenticated := some true,
        timestamp := some (isoOf now),
        expiresAt := some (now + t.expires_in * 1000),
        accessToken := some t.access_token,
        refreshToken := some t.refresh_token }
    { stored := some authInfo,
      fsOps := [FsOp.write authPath (serialize authInfo)], failed := false }
  | _ => { stored := none, fsOps := [], failed := true }

/-- A filesystem: an association list from path to file content. -/
def Fs := List (String × String)

instance : DecidableEq Fs := by
  unfold Fs
  infer_instance

/-- Content of a path. -/
def fsGet : Fs → String → Option String
  | [], _ => none
  | (q, e) :: rest, p => if q = p then some e else fsGet rest p

/-- Set the content of a path. -/
def fsSet : Fs → String → String → Fs
  | [], p, d => [(p, d)]
  | (q, e) :: rest, p, d =>
    if q = p then (p, d) :: rest else (q, e) :: fsSet rest p d

/-- Remove a path. -/
def fsRemove : Fs → String → Fs
  | [], _ => []
  | (q, e) :: rest, p => if q = p then rest else (q, e) :: fsRemove rest p

/-- Apply one completed filesystem operation. -/
def applyFsOp (fs : Fs) : FsOp → Fs
  | .write p d => fsSet fs p d
  | .rename src dst =>
    match fsGet fs src with
    | some d => fsSet (fsRemove fs src) dst d
    | none => fs

/-- The first `k` characters of a string (the on-disk content after a write
of `s` was interrupted partway). -/
def strTake (s : String) (k : Nat) : String := String.mk (s.data.take k)

/-- All filesystem states reachable when the execution of `ops` is
interrupted at any point: before each operation, in the middle of a plain
write (which first truncates, then appends — the file holds an arbitrary
prefix of the data), or after everything. A rename is atomic: it has no
intermediate state. -/
def midWriteFss (fs : Fs) : List FsOp → List Fs
  | [] => [fs]
  | op :: rest =>
    fs ::
      ((match op with
        | .write p d =>
          (List.range (d.data.length + 1)).map fun k => fsSet fs p (strTake d k)
        | .rename _ _ => []) ++ midWriteFss (applyFsOp fs op) rest)

/-- The filesystem operations `save(record)` performs in the source: both
`refreshAccessToken` (graph.ts line 97) and `authenticate` (index.ts line
164) issue one plain `fs.writeFile(authPath, JSON.stringify(record))`. -/
def saveOps (info : StoredAuthInfo) : List FsOp :=
  [FsOp.write authPath (serialize info)]

/-- Where a concurrent caller of the auth provider's `getAccessToken`
callback stands: about to run its synchronous part, suspended on its
in-flight token-endpoint request, or finished with an outcome. -/
inductive CallerPhase
  | ready
  | inflight
  | done (out : TokenOutcome)
deriving Repr, DecidableEq

/-- Shared state of two concurrent `getAccessToken` callers inside one
`GraphService`: the shared `this.authInfo`, the number of refresh requests
sent so far, each caller's phase, and whether each caller's expiry check
observed `needsRefresh` (recorded for stating the one-refresh-per-batch
claim). -/
structure ConcState where
  authInfo : Option StoredAuthInfo
  netCalls : Nat
  pcA : CallerPhase
  pcB : CallerPhase
  sawRefreshNeedA : Bool
  sawRefreshNeedB : Bool
deriving Repr, DecidableEq

/-- Both callers poised to run against the loaded record. -/
def ConcState.init (info : StoredAuthInfo) : ConcState :=
  { authInfo := some info, netCalls := 0, pcA := .ready, pcB := .ready,
    sawRefreshNeedA := false, sawRefreshNeedB := false }

/-- The synchronous prefix of one `getAccessToken` call, up to its first
await: read `this.authInfo`, run the expiry check of `ensureValidToken`,
and either send the refresh request (suspending on the fetch), or finish at
once with the cached token / the thrown error. Returns the new phase,
whether a network call was sent, and what the expiry check observed.
There is no deduplication state in the source (`GraphService` holds no
in-flight-refresh field), so this step never consults one. -/
def callerReadyStep (now : Int) (auth : Option StoredAuthInfo) :
    CallerPhase × Bool × Bool :=
  match auth with
  | none => (.done .authError, false, false)
  | some info =>
    if needsRefresh now info then
      if jsTruthyStr info.refreshToken then (.inflight, true, true)
      else (.done .authError, false, true)
    else
      if jsTruthyStr info.accessToken then
        (.done (.token (info.accessToken.getD "")), false, false)
      else (.done .authError, false, false)

/-- The continuation of a suspended caller once its own fetch resolves with
`resp`: on a 2xx body, spread the current `this.authInfo` into the updated
record, write it to disk, and return the fresh access token; on any failure
response, `refreshAccessToken` returns false and `getAccessToken` throws. -/
def callerResumeStep (now : Int) (auth : Option StoredAuthInfo)
    (resp : RefreshResponse) :
    Option StoredAuthInfo × List FsOp × CallerPhase :=
  match auth, resp with
  | some info, .ok atk rtk ei =>
    let newInfo := refreshSuccessInfo now info atk rtk ei
    (some newInfo, [FsOp.write authPath (serialize newInfo)],
      if jsTruthyStr newInfo.accessToken then .done (.token atk)
      else .done .authError)
  | _, _ => (auth, [], .done .authError)

/-- One scheduler step: run the chosen caller (`true` = A) for one atomic
segment. Segments are delimited exactly by the source's await points. -/
def concStep (now : Int) (resp : RefreshResponse) (st : ConcState)
    (isA : Bool) : ConcState :=
  match (if isA then st.pcA else st.pcB) with
  | .ready =>
    match callerReadyStep now st.authInfo with
    | (p, net, saw) =>
      let calls := st.netCalls + (if net then 1 else 0)
      if isA then
        { st with pcA := p, netCalls := calls,
                  sawRefreshNeedA := st.sawRefreshNeedA || saw }
      else
        { st with pcB := p, netCalls := calls,
                  sawRefreshNeedB := st.sawRefreshNeedB || saw }
  | .inflight =>
    match callerResumeStep now st.authInfo resp with
    | (auth', _ops, p) =>
      if isA then { st with authInfo := auth', pcA := p }
      else { st with authInfo := auth', pcB := p }
  | .done _ => st

/-- Run a schedule of caller choices. -/
def runSchedule (now : Int) (resp : RefreshResponse) :
    List Bool → ConcState → ConcState
  | [], st => st
  | b :: rest, st => runSchedule now resp rest (concStep now resp st b)

/-- The spec's single-refresh-per-batch property, stated over the two-caller
machine: under every interleaving in which both callers' expiry checks
observed `needsRefresh`, exactly one refresh request reaches the
authorization server, and callers that finished observe the same outcome. -/
def singleRefreshPerBatchClaim : Prop :=
  ∀ (now : Int) (info : StoredAuthInfo) (resp : RefreshResponse)
    (sched : List Bool),
    (runSchedule now resp sched (ConcState.init info)).sawRefreshNeedA = true →
    (runSchedule now resp sched (ConcState.init info)).sawRefreshNeedB = true →
    (runSchedule now resp sched (ConcState.init info)).netCalls = 1 ∧
      (∀ oA oB, (runSchedule now resp sched (ConcState.init info)).pcA = .done oA →
        (runSchedule now resp sched (ConcState.init info)).pcB = .done oB →
        oA = oB)

/-- The spec's terminal-unauthenticated property: once a refresh fails with
a server rejection, a subsequent credential request fails with
`NotAuthenticated` and makes no further network call. Stated over two
successive `getClient` calls on the singleton, starting uninitialized, with
the store holding a stale authenticated record whose refresh the server
rejects both times. -/
def unauthTerminalClaim : Prop :=
  ∀ (now : Int) (info : StoredAuthInfo) (s : Nat) (b : String),
    needsRefresh now info = true →
    jsTruthyBool info.authenticated = true →
    jsTruthyStr info.accessToken = true →
    jsTruthyStr info.refreshToken = true →
    ((getClient now
        (getClient now GraphState.fresh (.found info)
          (.httpError s b)).2.state
        (.found info) (.httpError s b)).1 =
        ClientOutcome.notAuthenticatedError ∧
      (getClient now
        (getClient now GraphState.fresh (.found info)
          (.httpError s b)).2.state
        (.found info) (.httpError s b)).2.netCalls = 0)

/-- The spec's atomic-save property: whatever the old on-disk content, every
state in which an interrupted `save(record)` can leave the credential file
holds either the old content or the full new serialization. -/
def atomicSaveClaim : Prop :=
  ∀ (oldContent : String) (info : StoredAuthInfo) (fsMid : Fs),
    fsMid ∈ midWriteFss [(authPath, oldContent)] (saveOps info) →
    fsGet fsMid authPath = some oldContent ∨
      fsGet fsMid authPath = some (serialize info)

/-- The spec's forward-readability property: a stored document missing any
of the required fields `accessToken`, `refreshToken`, `expiresAt` is treated
as `NotFound`, i.e. the provider behaves as unauthenticated (`getClient`
throws) rather than using the partial record. -/
def missingFieldNotFoundClaim : Prop :=
  ∀ (now : Int) (info : StoredAuthInfo) (resp : RefreshResponse),
    (info.accessToken = none ∨ info.refreshToken = none ∨
      info.expiresAt = none) →
    (getClient now GraphState.fresh (.found info) resp).1 =
      ClientOutcome.notAuthenticatedError

/-- A stale but complete record: expired long ago, all fields present. -/
def staleInfo : StoredAuthInfo :=
  { clientId := some CLIENT_ID, authenticated := some true,
    timestamp := some "2024-01-01T00:00:00.000Z", expiresAt := some 0,
    accessToken := some "oldAccess", refreshToken := some "oldRefresh" }

/-- A record that is complete except for a missing `expiresAt` field. -/
def noExpiryInfo : StoredAuthInfo :=
  { clientId := some CLIENT_ID, authenticated := some true,
    timestamp := some "2024-01-01T00:00:00.000Z", expiresAt := none,
    accessToken := some "partialAccess", refreshToken := some "partialRefresh" }

/-- A record whose `refreshToken` field is missing. -/
def noRefreshInfo : StoredAuthInfo :=
  { clientId := some CLIENT_ID, authenticated := some true,
    timestamp := some "2024-01-01T00:00:00.000Z", expiresAt := some 0,
    accessToken := some "acc", refreshToken := none }

/-- A record whose `accessToken` field is missing. -/
def noAccessInfo : StoredAuthInfo :=
  { clientId := some CLIENT_ID, authenticated := some true,
    timestamp := some "2024-01-01T00:00:00.000Z", expiresAt := some 0,
    accessToken := none, refreshToken := some "ref" }

/-- A fresh record: expires far in the future. -/
def freshInfo : StoredAuthInfo :=
  { clientId := some CLIENT_ID, authenticated := some true,
    timestamp := some "2024-01-01T00:00:00.000Z", expiresAt := some 1000000,
    accessToken := some "cachedAccess", refreshToken := some "cachedRefresh" }

/-- A server that answers `authorization_pending` forever. -/
def pendingForever : Nat → PollResponse :=
  fun _ => .err "authorization_pending" "pending"

/-- A server that answers `slow_down` twice, then issues the token. -/
def slowSlowOk (t : TokenResponse) : Nat → PollResponse :=
  fun n =>
    if n = 0 then .err "slow_down" "slow"
    else if n = 1 then .err "slow_down" "slow"
    else .ok t

/-! ## Helper lemmas -/

theorem serialize_length_pos (info : StoredAuthInfo) :
    0 < (serialize info).length := by
  have h2 : ("\x7b " : String).length = 2 := rfl
  simp [serialize, String.length_append]
  omega

theorem serialize_ne_empty (info : StoredAuthInfo) : serialize info ≠ "" := by
  intro h
  have hp := serialize_length_pos info
  rw [h] at hp
  exact absurd hp (by decide)

theorem pollAux_netCalls_le (responses : Nat → PollResponse) :
    ∀ fuel idx interval,
      (pollAux responses fuel idx interval).netCalls ≤ fuel := by
  intro fuel
  induction fuel with
  | zero => intro idx interval; simp [pollAux]
  | succ n ih =>
    intro idx interval
    cases hresp : responses idx with
    | ok t => simp [pollAux, hresp]
    | err code descr =>
      by_cases h1 : code = "authorization_pending"
      · have := ih (idx + 1) interval
        simp [pollAux, hresp, h1]
        omega
      · by_cases h2 : code = "slow_down"
        · have := ih (idx + 1) (interval + 5)
          simp [pollAux, hresp, h1, h2]
          omega
        · by_cases h3 : code = "authorization_declined"
          · simp [pollAux, hresp, h1, h2, h3]
          · by_cases h4 : code = "expired_token"
            · simp [pollAux, hresp, h1, h2, h3, h4]
            · simp [pollAux, hresp, h1, h2, h3, h4]

theorem pollAux_pending_timeout (responses : Nat → PollResponse)
    (hall : ∀ n, isPendingOrSlowDown (responses n) = true) :
    ∀ fuel idx interval,
      (pollAux responses fuel idx interval).outcome =
        PollOutcome.timeoutError ∧
      (pollAux responses fuel idx interval).netCalls = fuel := by
  intro fuel
  induction fuel with
  | zero => intro idx interval; simp [pollAux]
  | succ n ih =>
    intro idx interval
    have h := hall idx
    cases hresp : responses idx with
    | ok t => rw [hresp] at h; simp [isPendingOrSlowDown] at h
    | err code descr =>
      rw [hresp] at h
      simp [isPendingOrSlowDown] at h
      rcases h with h1 | h2
      · obtain ⟨ihA, ihB⟩ := ih (idx + 1) interval
        simp [pollAux, hresp, h1, ihA, ihB]
      · obtain ⟨ihA, ihB⟩ := ih (idx + 1) (interval + 5)
        simp [pollAux, hresp, h2, ihA, ihB]

/-! ## Claim theorems -/

/-- C5: for every in-memory credential record whose `expiresAt` is strictly
later than `now` + 5 minutes (and which holds an access credential), the
auth provider's `getAccessToken` returns the cached access credential
unchanged, performs no network call, issues no write, and leaves the record
as it was. -/
theorem freshToken_cached_no_network (now : Int) (info : StoredAuthInfo)
    (resp : RefreshResponse) (t : Int)
    (hexp : info.expiresAt = some t)
    (hfresh : now + refreshThresholdMs < t)
    (htok : jsTruthyStr info.accessToken = true) :
    getAccessToken now (some info) resp =
      (TokenOutcome.token (info.accessToken.getD ""),
        { success := true, authInfo := some info, netCalls := 0,
          fsOps := [], failReason := none }) := by
  have hnr : needsRefresh now info = false := by
    simp [needsRefresh, hexp, dateLe]
    omega
  simp [getAccessToken, ensureValidToken, hnr, htok, authAccessToken]

/-- Witness for C5: a record expiring at 1000000 ms, read at time 0, is
served from cache even though the network is down. -/
theorem freshToken_cached_no_network_witness :
    getAccessToken 0 (some freshInfo) (.networkError "down") =
      (TokenOutcome.token "cachedAccess",
        { success := true, authInfo := some freshInfo, netCalls := 0,
          fsOps := [], failReason := none }) := by
  have h := freshToken_cached_no_network 0 freshInfo (.networkError "down")
    1000000 rfl (by decide) (by decide)
  simpa [freshInfo] using h

/-- C9: when the loaded record has no refresh credential, the refresh
operation fails through its no-refresh-token branch without any network
call, any write, or any change to the record. -/
theorem refresh_no_token_no_network (now : Int)
    (auth : Option StoredAuthInfo) (resp : RefreshResponse)
    (h : authRefreshToken auth = none) :
    refreshAccessToken now auth resp =
      { success := false, authInfo := auth, netCalls := 0, fsOps := [],
        failReason := some .noRefreshToken } := by
  simp [refreshAccessToken, h, jsTruthyStr]

/-- Witness for C9: a record without a `refreshToken` field fails the
refresh with no network call even though the server would have answered. -/
theorem refresh_no_token_no_network_witness :
    refreshAccessToken 500000 (some noRefreshInfo) (.ok "a" "r" 3600) =
      { success := false, authInfo := some noRefreshInfo, netCalls := 0,
        fsOps := [], failReason := some .noRefreshToken } :=
  refresh_no_token_no_network 500000 (some noRefreshInfo)
    (.ok "a" "r" 3600) rfl

/-- C10: whenever `refreshAccessToken` fails before applying any update —
the refresh credential is absent (or empty), or the token endpoint answers
with a non-success status — it reports failure and leaves the in-memory
record exactly as it was and the store file untouched (no write issued). -/
theorem refresh_failure_no_mutation (now : Int)
    (auth : Option StoredAuthInfo) (resp : RefreshResponse)
    (h : jsTruthyStr (authRefreshToken auth) = false ∨
      ∃ s b, resp = RefreshResponse.httpError s b) :
    (refreshAccessToken now auth resp).success = false ∧
    (refreshAccessToken now auth resp).authInfo = auth ∧
    (refreshAccessToken now auth resp).fsOps = [] := by
  rcases h with h | ⟨s, b, rfl⟩
  · simp [refreshAccessToken, h]
  · cases hb : jsTruthyStr (authRefreshToken auth) with
    | false => simp [refreshAccessToken, hb]
    | true =>
      cases auth with
      | none => simp [authRefreshToken, jsTruthyStr] at hb
      | some info => simp [refreshAccessToken, hb]

/-- Witness for C10: a stale record whose refresh the server rejects with
status 400 is left untouched and nothing is written. -/
theorem refresh_failure_no_mutation_witness :
    (refreshAccessToken 500000 (some staleInfo)
        (.httpError 400 "invalid_grant")).success = false ∧
    (refreshAccessToken 500000 (some staleInfo)
        (.httpError 400 "invalid_grant")).authInfo = some staleInfo ∧
    (refreshAccessToken 500000 (some staleInfo)
        (.httpError 400 "invalid_grant")).fsOps = [] :=
  refresh_failure_no_mutation 500000 (some staleInfo)
    (.httpError 400 "invalid_grant")
    (Or.inr ⟨400, "invalid_grant", rfl⟩)

/-- C8: on every successful refresh the new record takes the refresh
credential exactly as the server returned it (never keeping the old value),
sets `expiresAt = now + expires_in` seconds and its issue timestamp to now,
and the serialized new record is written to the store as part of the
operation, before it returns. -/
theorem refresh_success_rotates_and_persists (now : Int)
    (info : StoredAuthInfo) (atk rtk : String) (ei : Int)
    (h : jsTruthyStr info.refreshToken = true) :
    refreshAccessToken now (some info) (.ok atk rtk ei) =
      { success := true,
        authInfo := some (refreshSuccessInfo now info atk rtk ei),
        netCalls := 1,
        fsOps := [FsOp.write authPath
          (serialize (refreshSuccessInfo now info atk rtk ei))],
        failReason := none } ∧
    (refreshSuccessInfo now info atk rtk ei).refreshToken = some rtk ∧
    (refreshSuccessInfo now info atk rtk ei).expiresAt =
      some (now + ei * 1000) ∧
    (refreshSuccessInfo now info atk rtk ei).timestamp = some (isoOf now) := by
  refine ⟨?_, rfl, rfl, rfl⟩
  simp [refreshAccessToken, authRefreshToken, h]

/-- Witness for C8: refreshing the stale record with a server answer whose
refresh token differs from the stored one rotates it and persists once. -/
theorem refresh_success_rotates_and_persists_witness :
    refreshAccessToken 500000 (some staleInfo) (.ok "newAcc" "newRef" 3600) =
      { success := true,
        authInfo := some (refreshSuccessInfo 500000 staleInfo
          "newAcc" "newRef" 3600),
        netCalls := 1,
        fsOps := [FsOp.write authPath
          (serialize (refreshSuccessInfo 500000 staleInfo
            "newAcc" "newRef" 3600))],
        failReason := none } ∧
    (refreshSuccessInfo 500000 staleInfo "newAcc" "newRef" 3600).refreshToken =
      some "newRef" ∧
    (refreshSuccessInfo 500000 staleInfo "newAcc" "newRef" 3600).expiresAt =
      some (500000 + 3600 * 1000) ∧
    (refreshSuccessInfo 500000 staleInfo "newAcc" "newRef" 3600).timestamp =
      some (isoOf 500000) :=
  refresh_success_rotates_and_persists 500000 staleInfo "newAcc" "newRef"
    3600 (by decide)

/-- C6: for every sequence of server responses, `pollForToken` makes at most
`maxAttempts` (100) requests; and if the server only ever answers
`authorization_pending` or `slow_down`, it makes exactly the capped number
of attempts and then fails with the timeout error. -/
theorem pollForToken_bounded (responses : Nat → PollResponse)
    (interval : Nat) :
    (pollForToken responses interval).netCalls ≤ maxAttempts ∧
    ((∀ n, isPendingOrSlowDown (responses n) = true) →
      (pollForToken responses interval).outcome = PollOutcome.timeoutError ∧
      (pollForToken responses interval).netCalls = maxAttempts) := by
  constructor
  · exact pollAux_netCalls_le responses maxAttempts 0 interval
  · intro hall
    exact pollAux_pending_timeout responses hall maxAttempts 0 interval

/-- Witness for C6: a server that answers `authorization_pending` forever
stays within the cap and times out. -/
theorem pollForToken_bounded_witness :
    (pollForToken pendingForever 5).netCalls ≤ maxAttempts ∧
    (pollForToken pendingForever 5).outcome = PollOutcome.timeoutError :=
  ⟨(pollForToken_bounded pendingForever 5).1,
    ((pollForToken_bounded pendingForever 5).2 (fun _ => rfl)).1⟩

/-- C7: when the server answers `slow_down` twice and then issues the token,
each `slow_down` grows the interval by exactly 5 seconds, so the final
interval slept before the successful request is the initial interval plus
10 seconds; and `authenticate` then persists the resulting record with
exactly one write. -/
theorem slowDown_twice_then_success (i : Nat) (t : TokenResponse)
    (now : Int) :
    pollForToken (slowSlowOk t) i =
      { outcome := PollOutcome.success t, netCalls := 3,
        sleeps := [i, i + 5, i + 10] } ∧
    (authenticate now (slowSlowOk t) i).fsOps.length = 1 := by
  have e : i + 10 = i + 5 + 5 := by omega
  rw [e]
  exact ⟨rfl, rfl⟩

/-- C1 (counterexample): the claim that every batch of concurrent callers
observing `needsRefresh` produces exactly one refresh network call is false
on the source: `GraphService` holds no in-flight-refresh state, so in the
interleaving A-check, B-check, A-resume, B-resume both callers' checks see
the stale record and each sends its own request (two network calls). -/
theorem singleRefreshPerBatch_counterexample :
    ¬ singleRefreshPerBatchClaim := by
  intro h
  have hc := h 1000000 staleInfo (.ok "newAcc" "newRef" 3600)
    [true, false, true, false] (by decide) (by decide)
  exact absurd hc.1 (by decide)

/-- C1 (amended): the provider does not share an in-flight refresh. Each
concurrent caller whose expiry check observes `needsRefresh` sends its own
refresh request: in the interleaving where both callers run their check
before either response is processed, two network calls are made; both
callers still finish with the access token of a refresh response. -/
theorem concurrent_refresh_duplicated (now : Int) (info : StoredAuthInfo)
    (atk rtk : String) (ei : Int)
    (hstale : needsRefresh now info = true)
    (href : jsTruthyStr info.refreshToken = true)
    (hatk : atk ≠ "") :
    (runSchedule now (.ok atk rtk ei) [true, false, true, false]
      (ConcState.init info)).netCalls = 2 ∧
    (runSchedule now (.ok atk rtk ei) [true, false, true, false]
      (ConcState.init info)).pcA = CallerPhase.done (.token atk) ∧
    (runSchedule now (.ok atk rtk ei) [true, false, true, false]
      (ConcState.init info)).pcB = CallerPhase.done (.token atk) := by
  have h2 : jsTruthyStr (some atk) = true := by simp [jsTruthyStr, hatk]
  simp [runSchedule, concStep, ConcState.init, callerReadyStep,
    callerResumeStep, refreshSuccessInfo, hstale, href, h2]

/-- Witness for the amended C1 at a concrete stale record and response. -/
theorem concurrent_refresh_duplicated_witness :
    (runSchedule 1000000 (.ok "newAcc" "newRef" 3600)
      [true, false, true, false] (ConcState.init staleInfo)).netCalls = 2 ∧
    (runSchedule 1000000 (.ok "newAcc" "newRef" 3600)
      [true, false, true, false] (ConcState.init staleInfo)).pcA =
      CallerPhase.done (.token "newAcc") ∧
    (runSchedule 1000000 (.ok "newAcc" "newRef" 3600)
      [true, false, true, false] (ConcState.init staleInfo)).pcB =
      CallerPhase.done (.token "newAcc") :=
  concurrent_refresh_duplicated 1000000 staleInfo "newAcc" "newRef" 3600
    (by decide) (by decide) (by decide)

/-- C2 (counterexample): the claim that after a server-rejected refresh
every subsequent credential request fails without a further network call is
false: the service records no terminal state (`isInitialized` stays false
and the record keeps its refresh token), so the second `getClient` call
re-loads the store and sends another refresh request; its network-call count
is 1, not 0. -/
theorem unauthTerminal_counterexample : ¬ unauthTerminalClaim := by
  intro h
  have hc := h 1000000 staleInfo 400 "invalid_grant"
    (by decide) (by decide) (by decide) (by decide)
  exact absurd hc.2 (by decide)

/-- C2 (amended): after a server-rejected refresh, credential requests do
fail (`getClient` throws its not-authenticated error), but there is no
terminal unauthenticated state: every subsequent call re-attempts the
refresh, sending one further network call to the authorization server
before failing again. -/
theorem serverRejected_retries_each_call (now : Int)
    (info : StoredAuthInfo) (s : Nat) (b : String)
    (hstale : needsRefresh now info = true)
    (hauth : jsTruthyBool info.authenticated = true)
    (hacc : jsTruthyStr info.accessToken = true)
    (href : jsTruthyStr info.refreshToken = true) :
    (getClient now GraphState.fresh (.found info) (.httpError s b)).1 =
      ClientOutcome.notAuthenticatedError ∧
    (getClient now GraphState.fresh (.found info)
      (.httpError s b)).2.netCalls = 1 ∧
    (getClient now
      (getClient now GraphState.fresh (.found info) (.httpError s b)).2.state
      (.found info) (.httpError s b)).1 =
      ClientOutcome.notAuthenticatedError ∧
    (getClient now
      (getClient now GraphState.fresh (.found info) (.httpError s b)).2.state
      (.found info) (.httpError s b)).2.netCalls = 1 := by
  have hr : refreshAccessToken now (some info) (.httpError s b) =
      { success := false, authInfo := some info, netCalls := 1, fsOps := [],
        failReason := some (.serverRejected s b) } := by
    simp [refreshAccessToken, authRefreshToken, href]
  have he : ensureValidToken now (some info) (.httpError s b) =
      { success := false, authInfo := some info, netCalls := 1, fsOps := [],
        failReason := some (.serverRejected s b) } := by
    simp [ensureValidToken, hstale, hr]
  simp [getClient, initializeClient, GraphState.fresh, hauth, hacc, he]

/-- Witness for the amended C2 at a concrete stale record and a simulated
`invalid_grant` rejection. -/
theorem serverRejected_retries_each_call_witness :
    (getClient 1000000 GraphState.fresh (.found staleInfo)
      (.httpError 400 "invalid_grant")).1 =
      ClientOutcome.notAuthenticatedError ∧
    (getClient 1000000 GraphState.fresh (.found staleInfo)
      (.httpError 400 "invalid_grant")).2.netCalls = 1 ∧
    (getClient 1000000
      (getClient 1000000 GraphState.fresh (.found staleInfo)
        (.httpError 400 "invalid_grant")).2.state
      (.found staleInfo) (.httpError 400 "invalid_grant")).1 =
      ClientOutcome.notAuthenticatedError ∧
    (getClient 1000000
      (getClient 1000000 GraphState.fresh (.found staleInfo)
        (.httpError 400 "invalid_grant")).2.state
      (.found staleInfo) (.httpError 400 "invalid_grant")).2.netCalls = 1 :=
  serverRejected_retries_each_call 1000000 staleInfo 400 "invalid_grant"
    (by decide) (by decide) (by decide) (by decide)

set_option maxRecDepth 4000 in
/-- C3 (counterexample): save is not effectively atomic. With old content
`"OLDCONTENT"` on disk, interrupting the single direct write of the new
record right after truncation leaves the credential file empty — a state
that is neither the old content nor the new serialization. -/
theorem atomicSave_counterexample : ¬ atomicSaveClaim := by
  intro h
  have hc := h "OLDCONTENT" staleInfo [(authPath, "")] (by decide)
  rcases hc with hc | hc
  · exact absurd hc (by decide)
  · exact absurd hc (by decide)

/-- C3 (amended): in the source, `save(record)` is a single plain
`fs.writeFile` of the serialized record directly to the credential path —
no temporary location, no rename. Consequently it is not effectively
atomic: for any nonempty old content, a failure mid-write can leave the
file in a state that is neither the old content nor the new serialized
record (e.g. the truncated empty file). -/
theorem save_direct_write_not_atomic (oldContent : String)
    (info : StoredAuthInfo) (h : oldContent ≠ "") :
    saveOps info = [FsOp.write authPath (serialize info)] ∧
    ∃ fsMid ∈ midWriteFss [(authPath, oldContent)] (saveOps info),
      fsGet fsMid authPath ≠ some oldContent ∧
      fsGet fsMid authPath ≠ some (serialize info) := by
  refine ⟨rfl,
    fsSet [(authPath, oldContent)] authPath (strTake (serialize info) 0),
    ?_, ?_, ?_⟩
  · simp only [saveOps, midWriteFss]
    refine List.mem_cons_of_mem _ (List.mem_append_left _ ?_)
    exact List.mem_map.mpr ⟨0, List.mem_range.mpr (by omega), rfl⟩
  · have hget : fsGet
        (fsSet [(authPath, oldContent)] authPath (strTake (serialize info) 0))
        authPath = some "" := by
      simp [fsSet, fsGet, strTake]
    rw [hget]
    intro he
    exact h (Option.some.inj he).symm
  · have hget : fsGet
        (fsSet [(authPath, oldContent)] authPath (strTake (serialize info) 0))
        authPath = some "" := by
      simp [fsSet, fsGet, strTake]
    rw [hget]
    intro he
    exact serialize_ne_empty info (Option.some.inj he).symm

/-- Witness for the amended C3 at concrete old content and record. -/
theorem save_direct_write_not_atomic_witness :
    saveOps staleInfo = [FsOp.write authPath (serialize staleInfo)] ∧
    ∃ fsMid ∈ midWriteFss [(authPath, "OLDCONTENT")] (saveOps staleInfo),
      fsGet fsMid authPath ≠ some "OLDCONTENT" ∧
      fsGet fsMid authPath ≠ some (serialize staleInfo) :=
  save_direct_write_not_atomic "OLDCONTENT" staleInfo (by decide)

/-- C4 (counterexample): a stored document that is authenticated and has an
access token but no `expiresAt` field is not treated as `NotFound`: the
invalid-date comparison `expiresAt <= now + 5min` is false, so the provider
initializes successfully and serves the partial record. -/
theorem missingFieldNotFound_counterexample : ¬ missingFieldNotFoundClaim := by
  intro h
  have hc := h 1000000 noExpiryInfo (.networkError "down")
    (Or.inr (Or.inr rfl))
  exact absurd hc (by decide)

/-- C4 (amended): loading is only partially guarded. A document missing
`accessToken` (or one that fails to load at all) is treated as
unauthenticated with no network call; but a document that is authenticated
with an access token and a missing `expiresAt` is used as-is: the provider
initializes, makes no network call (the invalid-date expiry check is always
false, so no refresh is ever attempted), and serves the stored access
credential. (Unknown extra JSON fields are ignored throughout: the code
reads only the declared fields.) -/
theorem missingFields_partial_behavior :
    (∀ (now : Int) (info : StoredAuthInfo) (resp : RefreshResponse),
      jsTruthyStr info.accessToken = false →
      (getClient now GraphState.fresh (.found info) resp).1 =
        ClientOutcome.notAuthenticatedError ∧
      (getClient now GraphState.fresh (.found info) resp).2.netCalls = 0) ∧
    (∀ (now : Int) (resp : RefreshResponse),
      (getClient now GraphState.fresh .notFound resp).1 =
        ClientOutcome.notAuthenticatedError ∧
      (getClient now GraphState.fresh .notFound resp).2.netCalls = 0) ∧
    (∀ (now : Int) (info : StoredAuthInfo) (resp : RefreshResponse),
      info.expiresAt = none →
      jsTruthyBool info.authenticated = true →
      jsTruthyStr info.accessToken = true →
      (getClient now GraphState.fresh (.found info) resp).1 =
        ClientOutcome.client ∧
      (getClient now GraphState.fresh (.found info) resp).2.netCalls = 0 ∧
      (getAccessToken now (some info) resp).1 =
        TokenOutcome.token (info.accessToken.getD "")) := by
  refine ⟨?_, ?_, ?_⟩
  · intro now info resp hacc
    simp [getClient, initializeClient, GraphState.fresh, hacc]
  · intro now resp
    simp [getClient, initializeClient, GraphState.fresh]
  · intro now info resp hexp hauth hacc
    have hnr : needsRefresh now info = false := by
      simp [needsRefresh, hexp, dateLe]
    simp [getClient, initializeClient, getAccessToken, ensureValidToken,
      GraphState.fresh, authAccessToken, hauth, hacc, hnr]

/-- Witness for the amended C4: a record lacking `accessToken` is rejected
without network use; a record lacking `expiresAt` is accepted and served. -/
theorem missingFields_partial_behavior_witness :
    ((getClient 1000000 GraphState.fresh (.found noAccessInfo)
        (.networkError "down")).1 = ClientOutcome.notAuthenticatedError ∧
      (getClient 1000000 GraphState.fresh (.found noAccessInfo)
        (.networkError "down")).2.netCalls = 0) ∧
    ((getClient 5 GraphState.fresh .notFound (.networkError "down")).1 =
        ClientOutcome.notAuthenticatedError ∧
      (getClient 5 GraphState.fresh .notFound
        (.networkError "down")).2.netCalls = 0) ∧
    ((getClient 1000000 GraphState.fresh (.found noExpiryInfo)
        (.networkError "down")).1 = ClientOutcome.client ∧
      (getClient 1000000 GraphState.fresh (.found noExpiryInfo)
        (.networkError "down")).2.netCalls = 0 ∧
      (getAccessToken 1000000 (some noExpiryInfo) (.networkError "down")).1 =
        TokenOutcome.token "partialAccess") := by
  refine ⟨missingFields_partial_behavior.1 1000000 noAccessInfo
      (.networkError "down") (by decide),
    missingFields_partial_behavior.2.1 5 (.networkError "down"), ?_⟩
  have h := missingFields_partial_behavior.2.2 1000000 noExpiryInfo
    (.networkError "down") rfl (by decide) (by decide)
  simpa [noExpiryInfo] using h
